import Mathlib

/-!
Shallow embedding of the parameter-validation, request-building and
error-normalization core of the `google-maps-geocoding-mcp` server
(`src/geocoding-tool.ts` together with `src/config.ts`), and proofs of the
testable properties stated about it.

JavaScript numbers are modelled as exact rationals (`ℚ`) plus explicit
`NaN` / `±Infinity` markers; strings as Lean `String`; absent (`undefined`)
fields as `Option`; JS truthiness is made explicit where the source relies
on it (`!params.address`, `params.region && ...`, `timeout || 5000`).
-/

namespace GeoMcp

/-! ## JS value model -/

/-- A JavaScript runtime value in a position typed `string`: the MCP layer
casts the raw argument blob (`args as unknown as ...Params`), so at runtime
the field may be `undefined`, a string, or any other value.  Non-string
values are abstracted to their truthiness, which is all the source ever
inspects before the `typeof === "string"` guard. -/
inductive JsVal where
  | undef
  | str (s : String)
  | nonStr (truthy : Bool)
deriving DecidableEq, Repr

/-- JS truthiness of a `JsVal` (`undefined` and `""` are falsy). -/
def JsVal.truthy : JsVal → Bool
  | .undef => false
  | .str s => !s.isEmpty
  | .nonStr t => t

/-- JS truthiness of an optional string field (`undefined` and `""` falsy). -/
def strTruthy : Option String → Bool
  | none => false
  | some s => !s.isEmpty

/-- `a || b` on optional strings: JS logical-or keeps the first truthy
operand, else the second operand. -/
def jsOrStr (a b : Option String) : Option String :=
  if strTruthy a then a else b

/-- `a || d` where `a` is an optional number and `d` a default: `0` and
`undefined` are falsy. -/
def jsOrNum (a : Option Nat) (d : Nat) : Nat :=
  match a with
  | none => d
  | some n => if n = 0 then d else n

/-! ## JS number parsing (`parseFloat`) -/

/-- Result of `parseFloat`: `NaN`, a signed infinity, or a finite value
(modelled exactly as a rational). -/
inductive PFloat where
  | nan
  | inf (neg : Bool)
  | fin (q : ℚ)
deriving DecidableEq, Repr

/-- `isNaN(x)` for a parsed value. -/
def PFloat.isNan : PFloat → Bool
  | .nan => true
  | _ => false

/-- JS `x >= c` for a parsed value and a finite constant
(`NaN >= c` is false, `Infinity >= c` true, `-Infinity >= c` false). -/
def jsGE (x : PFloat) (c : ℚ) : Bool :=
  match x with
  | .nan => false
  | .inf neg => !neg
  | .fin q => decide (c ≤ q)

/-- JS `x <= c` for a parsed value and a finite constant. -/
def jsLE (x : PFloat) (c : ℚ) : Bool :=
  match x with
  | .nan => false
  | .inf neg => neg
  | .fin q => decide (q ≤ c)

/-- JS white space as used by `String.prototype.trim` and the leading-space
skip of `parseFloat` (ASCII part plus NBSP and BOM). -/
def isJsWs (c : Char) : Bool :=
  c = ' ' || c = '\t' || c = '\n' || c = '\r' ||
  c = '\x0b' || c = '\x0c' || c = ' ' || c = '﻿'

/-- `String.prototype.trim()`: strip JS white space from both ends. -/
def jsTrim (s : String) : String :=
  String.mk ((((s.data.dropWhile isJsWs).reverse.dropWhile isJsWs).reverse))

def isDigitChar (c : Char) : Bool := '0' ≤ c && c ≤ '9'

/-- Numeric value of a digit run (most significant first). -/
def digitsToNat : List Char → Nat
  | [] => 0
  | c :: cs => (c.toNat - '0'.toNat) * 10 ^ cs.length + digitsToNat cs

/-- The exact rational value `m * 10 ^ e` of a decimal mantissa and a signed
decimal exponent. -/
def decValue (m : Nat) (e : Int) : ℚ :=
  if 0 ≤ e then ((m * 10 ^ e.toNat : Nat) : ℚ) else mkRat (m : Int) (10 ^ (-e).toNat)

/-- Parse an optional exponent part `(e|E)(+|-)? digits` at the head of the
input; if the digits are missing the whole part is not consumed
(longest-match, as in `parseFloat("1e")`). -/
def parseExpPart (cs : List Char) : Int :=
  match cs with
  | 'e' :: rest | 'E' :: rest =>
    match rest with
    | '+' :: rest2 =>
      (if (rest2.takeWhile isDigitChar).isEmpty then 0
        else (digitsToNat (rest2.takeWhile isDigitChar) : Int))
    | '-' :: rest2 =>
      (if (rest2.takeWhile isDigitChar).isEmpty then 0
        else -(digitsToNat (rest2.takeWhile isDigitChar) : Int))
    | _ =>
      (if (rest.takeWhile isDigitChar).isEmpty then 0
        else (digitsToNat (rest.takeWhile isDigitChar) : Int))
  | _ => 0

/-- Parse an unsigned `StrUnsignedDecimalLiteral` prefix: `Infinity`, or
`digits [. digits] [exp]`, or `. digits [exp]`.  Returns `none` when no
numeric prefix is present (`parseFloat` yields `NaN`). -/
def parseUnsigned (cs : List Char) : Option PFloat :=
  if ['I','n','f','i','n','i','t','y'].isPrefixOf cs then some (.inf false)
  else
    let intPart := cs.takeWhile isDigitChar
    let rest := cs.dropWhile isDigitChar
    match rest with
    | '.' :: rest2 =>
      let fracPart := rest2.takeWhile isDigitChar
      if intPart.isEmpty && fracPart.isEmpty then none
      else
        let e := parseExpPart (rest2.dropWhile isDigitChar)
        some (.fin (decValue (digitsToNat (intPart ++ fracPart)) (e - fracPart.length)))
    | _ =>
      if intPart.isEmpty then none
      else
        some (.fin (decValue (digitsToNat intPart) (parseExpPart rest)))

/-- `parseFloat(s)`: skip leading white space, optional sign, then the
longest numeric prefix; trailing garbage is ignored; no numeric prefix
gives `NaN`. -/
def jsParseFloat (s : String) : PFloat :=
  let cs := s.data.dropWhile isJsWs
  match cs with
  | '+' :: rest =>
    match parseUnsigned rest with
    | some v => v
    | none => .nan
  | '-' :: rest =>
    match parseUnsigned rest with
    | some (.inf _) => .inf true
    | some (.fin q) => .fin (-q)
    | _ => .nan
  | _ =>
    match parseUnsigned cs with
    | some v => v
    | none => .nan

/-- `String.prototype.split(",")`: split on every comma, keeping empty
pieces (so `"" → [""]` and `"a," → ["a", ""]`). -/
def splitCommaAux : List Char → List Char → List String
  | [], acc => [String.mk acc.reverse]
  | c :: rest, acc =>
    if c = ',' then String.mk acc.reverse :: splitCommaAux rest []
    else splitCommaAux rest (c :: acc)

def splitComma (s : String) : List String := splitCommaAux s.data []

/-! ## Validator (`GeocodingTool.isValidLatLng` and `validate*Params`) -/

/-- `isValidLatLng` from the source: split on comma, require exactly two
parts, `parseFloat` each trimmed part, require non-`NaN` and the
latitude/longitude ranges. -/
def isValidLatLng (latlng : String) : Bool :=
  match splitComma latlng with
  | [p0, p1] =>
    let lat := jsParseFloat (jsTrim p0)
    let lng := jsParseFloat (jsTrim p1)
    !lat.isNan && !lng.isNan &&
      jsGE lat (-90) && jsLE lat 90 && jsGE lng (-180) && jsLE lng 180
  | _ => false

/-- The latlng-format check as the specification words it: split on comma,
exactly two parts, both parts parse as finite decimal numbers after
trimming white space, latitude in [-90, 90], longitude in [-180, 180]. -/
def latLngSpecValid (s : String) : Bool :=
  match splitComma s with
  | [p0, p1] =>
    match jsParseFloat (jsTrim p0), jsParseFloat (jsTrim p1) with
    | .fin lat, .fin lng =>
      decide (-90 ≤ lat) && decide (lat ≤ 90) &&
        decide (-180 ≤ lng) && decide (lng ≤ 180)
    | _, _ => false
  | _ => false

/-! ## Parameter records and configuration -/

/-- `ServerConfig` from `src/config.ts`; optional fields may be absent. -/
structure ServerConfig where
  apiKey : String
  timeout : Option Nat := none
  rateLimit : Option Nat := none
  defaultLanguage : Option String := none
  defaultRegion : Option String := none
deriving DecidableEq, Repr

/-- A component filter entry (field name, value); treated opaquely. -/
structure GeocodeComponents where
  entries : List (String × String) := []
deriving DecidableEq, Repr

/-- A lat/lng pair as used in `bounds`; treated opaquely. -/
structure Bounds where
  northeastLat : ℚ := 0
  northeastLng : ℚ := 0
  southwestLat : ℚ := 0
  southwestLng : ℚ := 0
deriving DecidableEq, Repr

/-- `ForwardGeocodeParams`: the caller-supplied argument object for
forward geocoding (after the MCP layer's unchecked cast, every field may
be absent). -/
structure ForwardGeocodeParams where
  address : Option String := none
  language : Option String := none
  region : Option String := none
  components : Option GeocodeComponents := none
  bounds : Option Bounds := none
  result_type : Option (List String) := none
  location_type : Option (List String) := none
deriving DecidableEq, Repr

/-- `ReverseGeocodeParams`: `latlng` is typed `string` but arrives through
an unchecked cast, so it is modelled as a raw JS value. -/
structure ReverseGeocodeParams where
  latlng : JsVal := .undef
  language : Option String := none
  region : Option String := none
  result_type : Option (List String) := none
  location_type : Option (List String) := none
deriving DecidableEq, Repr

/-- `PlaceGeocodeParams`. -/
structure PlaceGeocodeParams where
  place_id : Option String := none
  language : Option String := none
  region : Option String := none
  result_type : Option (List String) := none
  location_type : Option (List String) := none
deriving DecidableEq, Repr

/-! ## Validators (`validate*Params`) -/

def isLowerAZ (c : Char) : Bool := 'a' ≤ c && c ≤ 'z'
def isUpperAZ (c : Char) : Bool := 'A' ≤ c && c ≤ 'Z'

/-- The regex `/^[a-z]\x7b2\x7d(-[A-Z]\x7b2\x7d)?$/` used for `language`. -/
def languageMatches (s : String) : Bool :=
  match s.data with
  | [a, b] => isLowerAZ a && isLowerAZ b
  | [a, b, h, c, d] => isLowerAZ a && isLowerAZ b && h = '-' && isUpperAZ c && isUpperAZ d
  | _ => false

/-- The regex `/^[a-z]\x7b2\x7d$/` used for `region`. -/
def regionMatches (s : String) : Bool :=
  match s.data with
  | [a, b] => isLowerAZ a && isLowerAZ b
  | _ => false

/-- `validateCommonParams`: `some msg` models `throw new Error(msg)`,
`none` models a normal return.  The checks are guarded by JS truthiness
(`params.language && ...`), so absent or empty fields are skipped. -/
def validateCommonParams (language region : Option String) : Option String :=
  if strTruthy language && !languageMatches (language.getD "") then
    some "Invalid language format. Expected: \"en\", \"en-US\", etc."
  else if strTruthy region && !regionMatches (region.getD "") then
    some "Invalid region format. Expected: \"us\", \"uk\", etc."
  else none

/-- `validateForwardParams`. -/
def validateForwardParams (p : ForwardGeocodeParams) : Option String :=
  if !strTruthy p.address || (jsTrim (p.address.getD "")).isEmpty then
    some "Address is required."
  else if (p.address.getD "").length > 2048 then
    some "Address must be less than 2048 characters."
  else validateCommonParams p.language p.region

/-- `validateReverseParams`: the format check runs only when `latlng` is a
string (`typeof params.latlng === "string"`). -/
def validateReverseParams (p : ReverseGeocodeParams) : Option String :=
  if !p.latlng.truthy then
    some "Latlng is required."
  else if (match p.latlng with
           | .str s => !isValidLatLng s
           | _ => false) then
    some "Invalid latlng format. Expected: \"latitude,longitude\""
  else validateCommonParams p.language p.region

/-- `validatePlaceParams`. -/
def validatePlaceParams (p : PlaceGeocodeParams) : Option String :=
  if !strTruthy p.place_id then
    some "Place ID is required."
  else if !(['C','h','I','J'].isPrefixOf (p.place_id.getD "").data) then
    some "Invalid Place ID format. Must start with \"ChIJ\"."
  else validateCommonParams p.language p.region

/-! ## Request builder (`execute*Geocode` up to the network call) -/

/-- Which client method the built request is dispatched through:
`client.geocode` (the forward/place geocoding endpoint) or
`client.reverseGeocode`. -/
inductive Endpoint where
  | geocode
  | reverseGeocode
deriving DecidableEq, Repr

/-- The outbound parameter set handed to the upstream client, together with
the endpoint and timeout.  `none` means the key is absent from the object
(either never set, or deleted by the `undefined`-stripping loop). -/
structure OutboundParams where
  endpoint : Endpoint
  key : String
  address : Option String := none
  latlng : Option JsVal := none
  place_id : Option String := none
  language : Option String := none
  region : Option String := none
  components : Option GeocodeComponents := none
  bounds : Option Bounds := none
  result_type : Option (List String) := none
  location_type : Option (List String) := none
  timeout : Nat := 5000
deriving DecidableEq, Repr

/-- The request built by `executeForwardGeocode`: dispatched through
`client.geocode`; `language`/`region` fall back to the config defaults via
JS `||`; conditional spreads include `result_type`/`location_type` only
when truthy (arrays are always truthy, so: when present). -/
def buildForward (cfg : ServerConfig) (p : ForwardGeocodeParams) : OutboundParams :=
  { endpoint := .geocode
    key := cfg.apiKey
    address := p.address
    language := jsOrStr p.language (jsOrStr cfg.defaultLanguage none)
    region := jsOrStr p.region (jsOrStr cfg.defaultRegion none)
    components := p.components
    bounds := p.bounds
    result_type := p.result_type
    location_type := p.location_type
    timeout := jsOrNum cfg.timeout 5000 }

/-- The request built by `executeReverseGeocode`: dispatched through
`client.reverseGeocode`; `latlng` is forwarded as-is; `region` is included
only when caller-supplied and truthy (no config fallback). -/
def buildReverse (cfg : ServerConfig) (p : ReverseGeocodeParams) : OutboundParams :=
  { endpoint := .reverseGeocode
    key := cfg.apiKey
    latlng := some p.latlng
    language := jsOrStr p.language (jsOrStr cfg.defaultLanguage none)
    result_type := p.result_type
    location_type := p.location_type
    region := if strTruthy p.region then p.region else none
    timeout := jsOrNum cfg.timeout 5000 }

/-- The request built by `executePlaceGeocode`: dispatched through
`client.geocode` (same endpoint family as forward geocoding); `region` is
included only when caller-supplied and truthy (no config fallback). -/
def buildPlace (cfg : ServerConfig) (p : PlaceGeocodeParams) : OutboundParams :=
  { endpoint := .geocode
    key := cfg.apiKey
    place_id := p.place_id
    language := jsOrStr p.language (jsOrStr cfg.defaultLanguage none)
    result_type := p.result_type
    location_type := p.location_type
    region := if strTruthy p.region then p.region else none
    timeout := jsOrNum cfg.timeout 5000 }

/-! ## Response normalizer (`handleError`) and the three operations -/

/-- One geocoding result record (inner fields are never inspected by the
normalizer; two representative fields keep the record concrete). -/
structure GeocodeResult where
  formatted_address : String := ""
  place_id : String := ""
deriving DecidableEq, Repr

/-- The response payload (`GeocodeResponse["data"]`).  `results` is an
`Option` so that an upstream payload in which the field is absent can be
distinguished from one with an empty list. -/
structure GeocodeData where
  status : String
  results : Option (List GeocodeResult) := none
  error_message : Option String := none
deriving DecidableEq, Repr

/-- A raised JS error as seen by `handleError`: either an API error
carrying a structured response body (`error.response.data`), or a plain
`Error` with only a message (validation failures, network-level faults). -/
inductive JsError where
  | withBody (d : GeocodeData)
  | plain (msg : String)
deriving DecidableEq, Repr

/-- The outcome of the upstream client call: resolves with a payload, or
raises. -/
inductive Outcome where
  | success (d : GeocodeData)
  | raise (e : JsError)
deriving DecidableEq, Repr

/-- `handleError`: an error with a structured body is surfaced verbatim;
anything else collapses to `INVALID_REQUEST` with empty results and the
failure's message text. -/
def handleError : JsError → GeocodeData
  | .withBody d => d
  | .plain msg => { status := "INVALID_REQUEST", results := some [], error_message := some msg }

/-- `geocodeForward`: validate (a failure throws a plain `Error` caught by
`handleError`), else build the request, invoke the opaque upstream client
on it, and return the payload on success or normalize the raised error.
`upstream` models the external HTTP client as a function from the built
request to its outcome. -/
def geocodeForward (cfg : ServerConfig) (p : ForwardGeocodeParams)
    (upstream : OutboundParams → Outcome) : GeocodeData :=
  match validateForwardParams p with
  | some msg => handleError (.plain msg)
  | none =>
    match upstream (buildForward cfg p) with
    | .success d => d
    | .raise e => handleError e

/-- `geocodeReverse`. -/
def geocodeReverse (cfg : ServerConfig) (p : ReverseGeocodeParams)
    (upstream : OutboundParams → Outcome) : GeocodeData :=
  match validateReverseParams p with
  | some msg => handleError (.plain msg)
  | none =>
    match upstream (buildReverse cfg p) with
    | .success d => d
    | .raise e => handleError e

/-- `geocodePlace`. -/
def geocodePlace (cfg : ServerConfig) (p : PlaceGeocodeParams)
    (upstream : OutboundParams → Outcome) : GeocodeData :=
  match validatePlaceParams p with
  | some msg => handleError (.plain msg)
  | none =>
    match upstream (buildPlace cfg p) with
    | .success d => d
    | .raise e => handleError e

/-! ## Theorems -/

/-- Key lemma for the latlng format check: the source's `isValidLatLng`
(non-`NaN` plus range checks on `parseFloat` results) agrees with the
specification's phrasing (exactly two comma-separated parts, both finite
after trimming, within the latitude/longitude ranges): an infinite parse
always fails one of the two range bounds. -/
theorem isValidLatLng_eq_latLngSpecValid (s : String) :
    isValidLatLng s = latLngSpecValid s := by
  unfold isValidLatLng latLngSpecValid
  cases h : splitComma s with
  | nil => rfl
  | cons a t =>
    cases t with
    | nil => rfl
    | cons b t2 =>
      cases t2 with
      | cons c t3 => rfl
      | nil =>
        cases h0 : jsParseFloat (jsTrim a) <;>
          cases h1 : jsParseFloat (jsTrim b) <;>
            simp [h0, h1, PFloat.isNan, jsGE, jsLE]

/-- Claim C3: the latlng-format check accepts a string iff splitting on
comma yields exactly two parts that parse (via `parseFloat`, after
trimming) to finite values with latitude in [-90, 90] and longitude in
[-180, 180]; boundary strings are valid and the listed malformed strings
are invalid. -/
theorem latlng_check_matches_spec :
    (∀ s, isValidLatLng s = latLngSpecValid s)
    ∧ isValidLatLng "90,180" = true
    ∧ isValidLatLng "-90,-180" = true
    ∧ isValidLatLng "0,0" = true
    ∧ isValidLatLng "91,0" = false
    ∧ isValidLatLng "-91,0" = false
    ∧ isValidLatLng "0,181" = false
    ∧ isValidLatLng "0,-181" = false
    ∧ isValidLatLng "37.4224764" = false
    ∧ isValidLatLng "37.4224764," = false
    ∧ isValidLatLng ",122.0" = false
    ∧ isValidLatLng "a,b" = false
    ∧ isValidLatLng "1,2,3" = false :=
  ⟨isValidLatLng_eq_latLngSpecValid, by decide, by decide, by decide, by decide,
    by decide, by decide, by decide, by decide, by decide, by decide, by decide,
    by decide⟩

/-- Claim C4: in every built outbound parameter set the `key` field equals
the configured `apiKey`; two runs with the same config and different
caller arguments produce the same outbound key, for all three variants. -/
theorem outbound_key_from_config_only (cfg : ServerConfig)
    (p p' : ForwardGeocodeParams) (q q' : ReverseGeocodeParams)
    (r r' : PlaceGeocodeParams) :
    (buildForward cfg p).key = cfg.apiKey
    ∧ (buildReverse cfg q).key = cfg.apiKey
    ∧ (buildPlace cfg r).key = cfg.apiKey
    ∧ (buildForward cfg p).key = (buildForward cfg p').key
    ∧ (buildReverse cfg q).key = (buildReverse cfg q').key
    ∧ (buildPlace cfg r).key = (buildPlace cfg r').key :=
  ⟨rfl, rfl, rfl, rfl, rfl, rfl⟩

/-! ### Helper lemmas for validator reasoning -/

theorem dropWhile_replicate_neg {p : Char → Bool} {a : Char} (h : p a = false) (n : Nat) :
    List.dropWhile p (List.replicate n a) = List.replicate n a := by
  cases n with
  | zero => rfl
  | succ m => simp [List.replicate, List.dropWhile, h]

theorem dropWhile_replicate_pos {p : Char → Bool} {a : Char} (h : p a = true) (n : Nat) :
    List.dropWhile p (List.replicate n a) = [] := by
  induction n with
  | zero => rfl
  | succ m ih => simp [List.replicate, List.dropWhile, h, ih]

theorem mk_isEmpty_false {l : List Char} (h : l ≠ []) : (String.mk l).isEmpty = false := by
  rw [Bool.eq_false_iff]
  intro hc
  exact h (congrArg String.data ((String.isEmpty_iff _).mp hc))

theorem isEmpty_false_of_ne {s : String} (h : s ≠ "") : s.isEmpty = false := by
  rw [Bool.eq_false_iff]
  intro hc
  exact h ((String.isEmpty_iff _).mp hc)

theorem replicate_a_ne_nil {n : Nat} (h : n ≠ 0) : List.replicate n 'a' ≠ [] := by
  cases n with
  | zero => exact absurd rfl h
  | succ m => simp [List.replicate]

theorem jsTrim_replicate_a (n : Nat) :
    jsTrim (String.mk (List.replicate n 'a')) = String.mk (List.replicate n 'a') := by
  unfold jsTrim
  have hws : isJsWs 'a' = false := by decide
  rw [show (String.mk (List.replicate n 'a')).data = List.replicate n 'a' from rfl,
    dropWhile_replicate_neg hws, List.reverse_replicate, dropWhile_replicate_neg hws,
    List.reverse_replicate]

theorem validateForwardParams_required {p : ForwardGeocodeParams}
    (h : strTruthy p.address = false ∨ (jsTrim (p.address.getD "")).isEmpty = true) :
    validateForwardParams p = some "Address is required." := by
  unfold validateForwardParams
  rcases h with h | h <;> simp [h]

theorem validateForwardParams_tooLong {p : ForwardGeocodeParams}
    (h1 : strTruthy p.address = true)
    (h2 : (jsTrim (p.address.getD "")).isEmpty = false)
    (h3 : 2048 < (p.address.getD "").length) :
    validateForwardParams p = some "Address must be less than 2048 characters." := by
  unfold validateForwardParams
  simp [h1, h2, h3]

theorem validateForwardParams_lengthOk {p : ForwardGeocodeParams}
    (h1 : strTruthy p.address = true)
    (h2 : (jsTrim (p.address.getD "")).isEmpty = false)
    (h3 : ¬ 2048 < (p.address.getD "").length) :
    validateForwardParams p = validateCommonParams p.language p.region := by
  unfold validateForwardParams
  simp [h1, h2, h3]

/-- Claim C7: forward validation fails with the missing-address reason for
every absent or blank-after-trimming address (including `""` and `"   "`),
fails with the too-long reason for every non-blank address longer than
2048 characters, a 2048-character address passes, and the missing check is
evaluated before the length check (a 2049-space address gets the
missing-address reason, not the too-long one). -/
theorem forward_address_validation :
    (∀ p : ForwardGeocodeParams, (p.address = none ∨ jsTrim (p.address.getD "") = "") →
      validateForwardParams p = some "Address is required.")
    ∧ (∀ (p : ForwardGeocodeParams) (s : String), p.address = some s → jsTrim s ≠ "" →
      2048 < s.length →
      validateForwardParams p = some "Address must be less than 2048 characters.")
    ∧ validateForwardParams ⟨some "", none, none, none, none, none, none⟩
        = some "Address is required."
    ∧ validateForwardParams ⟨some "   ", none, none, none, none, none, none⟩
        = some "Address is required."
    ∧ validateForwardParams
        ⟨some (String.mk (List.replicate 2049 'a')), none, none, none, none, none, none⟩
        = some "Address must be less than 2048 characters."
    ∧ validateForwardParams
        ⟨some (String.mk (List.replicate 2048 'a')), none, none, none, none, none, none⟩
        = none
    ∧ validateForwardParams
        ⟨some (String.mk (List.replicate 2049 ' ')), none, none, none, none, none, none⟩
        = some "Address is required." := by
  refine ⟨?_, ?_, by decide, by decide, ?_, ?_, ?_⟩
  · intro p h
    apply validateForwardParams_required
    rcases h with h | h
    · exact Or.inl (by rw [h]; rfl)
    · exact Or.inr (by rw [h]; rfl)
  · intro p s hs htrim hlen
    apply validateForwardParams_tooLong
    · rw [hs]
      show (!s.isEmpty) = true
      rw [isEmpty_false_of_ne (by intro hc; rw [hc] at hlen; exact absurd hlen (by decide))]
      rfl
    · rw [hs]
      exact isEmpty_false_of_ne htrim
    · rw [hs]; exact hlen
  · apply validateForwardParams_tooLong
    · show (!(String.mk (List.replicate 2049 'a')).isEmpty) = true
      rw [mk_isEmpty_false (replicate_a_ne_nil (by decide))]
      rfl
    · show (jsTrim (String.mk (List.replicate 2049 'a'))).isEmpty = false
      rw [jsTrim_replicate_a]
      exact mk_isEmpty_false (replicate_a_ne_nil (by decide))
    · show 2048 < (String.mk (List.replicate 2049 'a')).length
      rw [String.mk_length, List.length_replicate]
      decide
  · rw [validateForwardParams_lengthOk]
    · rfl
    · show (!(String.mk (List.replicate 2048 'a')).isEmpty) = true
      rw [mk_isEmpty_false (replicate_a_ne_nil (by decide))]
      rfl
    · show (jsTrim (String.mk (List.replicate 2048 'a'))).isEmpty = false
      rw [jsTrim_replicate_a]
      exact mk_isEmpty_false (replicate_a_ne_nil (by decide))
    · show ¬ 2048 < (String.mk (List.replicate 2048 'a')).length
      rw [String.mk_length, List.length_replicate]
      decide
  · apply validateForwardParams_required
    right
    show (jsTrim (String.mk (List.replicate 2049 ' '))).isEmpty = true
    unfold jsTrim
    have hws : isJsWs ' ' = true := by decide
    rw [show (String.mk (List.replicate 2049 ' ')).data = List.replicate 2049 ' ' from rfl,
      dropWhile_replicate_pos hws]
    rfl

/-- Closed instantiation of the hypothesised parts of the C7 theorem: the
missing-address rule at an absent address, and the too-long rule at a
concrete 2049-character address. -/
theorem forward_address_validation_witness :
    validateForwardParams ⟨none, none, none, none, none, none, none⟩
      = some "Address is required."
    ∧ validateForwardParams
        ⟨some (String.mk (List.replicate 2049 'a')), none, none, none, none, none, none⟩
        = some "Address must be less than 2048 characters." :=
  ⟨forward_address_validation.1 _ (Or.inl rfl),
    forward_address_validation.2.1 _ (String.mk (List.replicate 2049 'a')) rfl
      (by
        rw [jsTrim_replicate_a]
        intro hc
        exact replicate_a_ne_nil (by decide) (congrArg String.data hc))
      (by rw [String.mk_length, List.length_replicate]; decide)⟩

/-- Claim C8: place validation fails with the required reason when
`place_id` is missing (or empty, since the missing check runs first),
fails with the invalid-format reason for every non-empty `place_id` not
starting with `"ChIJ"`, and the two listed concrete place ids behave as
stated. -/
theorem place_id_validation :
    (∀ p : PlaceGeocodeParams, strTruthy p.place_id = false →
      validatePlaceParams p = some "Place ID is required.")
    ∧ (∀ (p : PlaceGeocodeParams) (s : String), p.place_id = some s → s ≠ "" →
      ['C','h','I','J'].isPrefixOf s.data = false →
      validatePlaceParams p = some "Invalid Place ID format. Must start with \"ChIJ\".")
    ∧ validatePlaceParams ⟨some "invalid_place_id", none, none, none, none⟩
        = some "Invalid Place ID format. Must start with \"ChIJ\"."
    ∧ validatePlaceParams ⟨some "ChIJd8BlQ2BZwokRAFUEcm_qrcA", none, none, none, none⟩
        = none
    ∧ validatePlaceParams ⟨none, none, none, none, none⟩ = some "Place ID is required."
    ∧ validatePlaceParams ⟨some "", none, none, none, none⟩ = some "Place ID is required." := by
  refine ⟨?_, ?_, by decide, by decide, by decide, by decide⟩
  · intro p h
    unfold validatePlaceParams
    simp [h]
  · intro p s hs hne hpre
    unfold validatePlaceParams
    rw [hs]
    simp [strTruthy, isEmpty_false_of_ne hne, hpre]

/-- Closed instantiation of the hypothesised parts of the C8 theorem. -/
theorem place_id_validation_witness :
    validatePlaceParams ⟨none, some "en", none, none, none⟩ = some "Place ID is required."
    ∧ validatePlaceParams ⟨some "XYZ123", none, none, none, none⟩
        = some "Invalid Place ID format. Must start with \"ChIJ\"." :=
  ⟨place_id_validation.1 _ (by decide),
    place_id_validation.2.1 _ "XYZ123" rfl (by decide) (by decide)⟩

theorem validateReverseParams_fieldOk {p : ReverseGeocodeParams}
    (h1 : p.latlng.truthy = true)
    (h2 : ∀ s, p.latlng = .str s → isValidLatLng s = true) :
    validateReverseParams p = validateCommonParams p.language p.region := by
  unfold validateReverseParams
  cases hl : p.latlng with
  | undef => rw [hl] at h1; exact absurd h1 (by decide)
  | str s =>
    have hv := h2 s hl
    rw [hl] at h1
    simp [hl, h1, hv]
  | nonStr t =>
    rw [hl] at h1
    simp [JsVal.truthy] at h1
    simp [hl, h1, JsVal.truthy]

theorem validatePlaceParams_fieldOk {p : PlaceGeocodeParams}
    (h1 : strTruthy p.place_id = true)
    (h2 : ['C','h','I','J'].isPrefixOf (p.place_id.getD "").data = true) :
    validatePlaceParams p = validateCommonParams p.language p.region := by
  unfold validatePlaceParams
  simp [h1, h2]

theorem validateCommonParams_cases (l r : Option String) :
    validateCommonParams l r = none
    ∨ validateCommonParams l r
        = some "Invalid language format. Expected: \"en\", \"en-US\", etc."
    ∨ validateCommonParams l r
        = some "Invalid region format. Expected: \"us\", \"uk\", etc." := by
  unfold validateCommonParams
  split
  · exact Or.inr (Or.inl rfl)
  · split
    · exact Or.inr (Or.inr rfl)
    · exact Or.inl rfl

/-- A concrete configuration used in closed witnesses and counterexamples. -/
def cfg0 : ServerConfig := { apiKey := "test-api-key" }

/-- A concrete configuration with default language and region configured. -/
def cfgDR : ServerConfig :=
  { apiKey := "test-api-key", defaultLanguage := some "en", defaultRegion := some "de" }

/-- Claim C9: once the variant-specific checks pass, each of the three
validators returns exactly the common-filter validation outcome
`validateCommonParams language region`, so the outcome is identical across
forward, reverse and place for every language/region value; the listed
language/region examples validate as stated; and the common checks run
only after the variant-specific checks (a forward request with a missing
address and a malformed language reports the missing address). -/
theorem common_filter_validation_uniform
    (l r : Option String) (addr : Option String) (comp : Option GeocodeComponents)
    (bnd : Option Bounds) (rt1 lt1 rt2 lt2 rt3 lt3 : Option (List String))
    (lv : JsVal) (pid : Option String)
    (ha1 : strTruthy addr = true)
    (ha2 : (jsTrim (addr.getD "")).isEmpty = false)
    (ha3 : ¬ 2048 < (addr.getD "").length)
    (hl1 : lv.truthy = true)
    (hl2 : ∀ s, lv = .str s → isValidLatLng s = true)
    (hp1 : strTruthy pid = true)
    (hp2 : ['C','h','I','J'].isPrefixOf (pid.getD "").data = true) :
    validateForwardParams ⟨addr, l, r, comp, bnd, rt1, lt1⟩ = validateCommonParams l r
    ∧ validateReverseParams ⟨lv, l, r, rt2, lt2⟩ = validateCommonParams l r
    ∧ validatePlaceParams ⟨pid, l, r, rt3, lt3⟩ = validateCommonParams l r
    ∧ validateCommonParams (some "en") none = none
    ∧ validateCommonParams (some "en-US") none = none
    ∧ validateCommonParams (some "invalid-lang") none
        = some "Invalid language format. Expected: \"en\", \"en-US\", etc."
    ∧ validateCommonParams none (some "us") = none
    ∧ validateCommonParams none (some "USA")
        = some "Invalid region format. Expected: \"us\", \"uk\", etc."
    ∧ validateForwardParams ⟨none, some "invalid-lang", some "USA", none, none, none, none⟩
        = some "Address is required." := by
  refine ⟨?_, ?_, ?_, by decide, by decide, by decide, by decide, by decide, by decide⟩
  · exact validateForwardParams_lengthOk ha1 ha2 ha3
  · exact validateReverseParams_fieldOk hl1 hl2
  · exact validatePlaceParams_fieldOk hp1 hp2

/-- Closed instantiation of the C9 theorem: the same language/region pair
flows through all three validators with an identical outcome. -/
theorem common_filter_validation_uniform_witness :
    validateForwardParams
        ⟨some "1600 Amphitheatre Parkway", some "en-US", some "us", none, none, none, none⟩
      = validateCommonParams (some "en-US") (some "us")
    ∧ validateReverseParams ⟨.str "40.7,-74.0", some "en-US", some "us", none, none⟩
      = validateCommonParams (some "en-US") (some "us")
    ∧ validatePlaceParams ⟨some "ChIJd8BlQ2BZwokRAFUEcm_qrcA", some "en-US", some "us", none, none⟩
      = validateCommonParams (some "en-US") (some "us") :=
  have h := common_filter_validation_uniform (some "en-US") (some "us")
    (some "1600 Amphitheatre Parkway") none none none none none none none none
    (.str "40.7,-74.0") (some "ChIJd8BlQ2BZwokRAFUEcm_qrcA")
    (by decide) (by decide) (by decide) (by decide)
    (fun s hs => by injection hs with h2; rw [← h2]; decide)
    (by decide) (by decide)
  ⟨h.1, h.2.1, h.2.2.1⟩

/-- Claim C10: a truthy non-string `latlng` skips the format check — the
reverse validator reduces to the common checks and the raw value is
forwarded verbatim into the outbound request — while the latlng-invalid
failure arises only from a string value failing `isValidLatLng`. -/
theorem nonstring_latlng_bypasses_format_check :
    (∀ (t : Bool) (l r : Option String) (rt lt : Option (List String)) (cfg : ServerConfig),
      t = true →
      validateReverseParams ⟨.nonStr t, l, r, rt, lt⟩ = validateCommonParams l r
      ∧ (buildReverse cfg ⟨.nonStr t, l, r, rt, lt⟩).latlng = some (.nonStr t))
    ∧ (∀ p : ReverseGeocodeParams,
      validateReverseParams p = some "Invalid latlng format. Expected: \"latitude,longitude\"" →
      ∃ s, p.latlng = .str s ∧ isValidLatLng s = false) := by
  constructor
  · intro t l r rt lt cfg ht
    subst ht
    exact ⟨validateReverseParams_fieldOk rfl (fun s hs => nomatch hs), rfl⟩
  · intro p h
    unfold validateReverseParams at h
    cases hl : p.latlng with
    | undef =>
      rw [hl] at h
      simp [JsVal.truthy] at h
    | nonStr t =>
      rw [hl] at h
      cases t with
      | false => simp [JsVal.truthy] at h
      | true =>
        simp [JsVal.truthy] at h
        rcases validateCommonParams_cases p.language p.region with hc | hc | hc <;>
          rw [hc] at h <;> simp at h
    | str s =>
      rw [hl] at h
      cases hse : s.isEmpty with
      | true => simp [JsVal.truthy, hse] at h
      | false =>
        cases hvb : isValidLatLng s with
        | false => exact ⟨s, rfl, hvb⟩
        | true =>
          simp [JsVal.truthy, hse, hvb] at h
          rcases validateCommonParams_cases p.language p.region with hc | hc | hc <;>
            rw [hc] at h <;> simp at h

/-- Closed instantiation of the C10 theorem at a truthy non-string latlng
and at a concrete malformed string latlng. -/
theorem nonstring_latlng_bypasses_format_check_witness :
    (validateReverseParams ⟨.nonStr true, some "en", some "us", none, none⟩
        = validateCommonParams (some "en") (some "us")
      ∧ (buildReverse cfg0 ⟨.nonStr true, some "en", some "us", none, none⟩).latlng
        = some (.nonStr true))
    ∧ ∃ s, JsVal.str "not-a-latlng" = JsVal.str s ∧ isValidLatLng s = false :=
  ⟨nonstring_latlng_bypasses_format_check.1 true (some "en") (some "us") none none cfg0 rfl,
    nonstring_latlng_bypasses_format_check.2
      ⟨.str "not-a-latlng", none, none, none, none⟩ (by decide)⟩

/-- Claim C6: the forward builder resolves `region` as caller value, else
config default, else absent; the reverse and place builders include
`region` only when the caller supplied a truthy value, with no
config-default fallback. -/
theorem region_fallback_asymmetry (cfg : ServerConfig) (pf : ForwardGeocodeParams)
    (pr : ReverseGeocodeParams) (pp : PlaceGeocodeParams) :
    (strTruthy pf.region = true → (buildForward cfg pf).region = pf.region)
    ∧ (strTruthy pf.region = false → strTruthy cfg.defaultRegion = true →
        (buildForward cfg pf).region = cfg.defaultRegion)
    ∧ (strTruthy pf.region = false → strTruthy cfg.defaultRegion = false →
        (buildForward cfg pf).region = none)
    ∧ (strTruthy pr.region = true → (buildReverse cfg pr).region = pr.region)
    ∧ (strTruthy pr.region = false → (buildReverse cfg pr).region = none)
    ∧ (strTruthy pp.region = true → (buildPlace cfg pp).region = pp.region)
    ∧ (strTruthy pp.region = false → (buildPlace cfg pp).region = none) := by
  refine ⟨?_, ?_, ?_, ?_, ?_, ?_, ?_⟩
  · intro h; simp [buildForward, jsOrStr, h]
  · intro h1 h2; simp [buildForward, jsOrStr, h1, h2]
  · intro h1 h2; simp [buildForward, jsOrStr, h1, h2]
  · intro h; simp [buildReverse, h]
  · intro h; simp [buildReverse, h]
  · intro h; simp [buildPlace, h]
  · intro h; simp [buildPlace, h]

/-- Closed instantiation of the C6 theorem: with a default region
configured, forward falls back to it but reverse and place omit the field;
a caller-supplied region wins everywhere. -/
theorem region_fallback_asymmetry_witness :
    (buildForward cfgDR ⟨some "a", none, some "fr", none, none, none, none⟩).region = some "fr"
    ∧ (buildForward cfgDR ⟨some "a", none, none, none, none, none, none⟩).region = some "de"
    ∧ (buildForward cfg0 ⟨some "a", none, none, none, none, none, none⟩).region = none
    ∧ (buildReverse cfgDR ⟨.str "0,0", none, some "fr", none, none⟩).region = some "fr"
    ∧ (buildReverse cfgDR ⟨.str "0,0", none, none, none, none⟩).region = none
    ∧ (buildPlace cfgDR ⟨some "ChIJx", none, none, none, none⟩).region = none :=
  ⟨(region_fallback_asymmetry cfgDR ⟨some "a", none, some "fr", none, none, none, none⟩
      ⟨.str "0,0", none, none, none, none⟩ ⟨some "ChIJx", none, none, none, none⟩).1 rfl,
    (region_fallback_asymmetry cfgDR ⟨some "a", none, none, none, none, none, none⟩
      ⟨.str "0,0", none, none, none, none⟩ ⟨some "ChIJx", none, none, none, none⟩).2.1 rfl rfl,
    (region_fallback_asymmetry cfg0 ⟨some "a", none, none, none, none, none, none⟩
      ⟨.str "0,0", none, none, none, none⟩ ⟨some "ChIJx", none, none, none, none⟩).2.2.1 rfl rfl,
    (region_fallback_asymmetry cfgDR ⟨some "a", none, none, none, none, none, none⟩
      ⟨.str "0,0", none, some "fr", none, none⟩ ⟨some "ChIJx", none, none, none, none⟩).2.2.2.1 rfl,
    (region_fallback_asymmetry cfgDR ⟨some "a", none, none, none, none, none, none⟩
      ⟨.str "0,0", none, none, none, none⟩ ⟨some "ChIJx", none, none, none, none⟩).2.2.2.2.1 rfl,
    (region_fallback_asymmetry cfgDR ⟨some "a", none, none, none, none, none, none⟩
      ⟨.str "0,0", none, none, none, none⟩ ⟨some "ChIJx", none, none, none, none⟩).2.2.2.2.2.2 rfl⟩

/-- Claim C5 is refuted on the source: a validated place request is
dispatched through `client.geocode` — the same endpoint family as forward
geocoding — not through the `reverse-geocode`-shaped call. -/
theorem place_dispatch_endpoint_counterexample :
    validatePlaceParams ⟨some "ChIJd8BlQ2BZwokRAFUEcm_qrcA", none, none, none, none⟩ = none
    ∧ (buildPlace cfg0 ⟨some "ChIJd8BlQ2BZwokRAFUEcm_qrcA", none, none, none, none⟩).endpoint
        = Endpoint.geocode
    ∧ Endpoint.geocode ≠ Endpoint.reverseGeocode :=
  ⟨by decide, rfl, by decide⟩

/-- Claim C5 as amended: every validated place request is dispatched
through the `geocode`-shaped upstream call (the forward-geocoding endpoint
family), carrying `place_id`, `key`, `language` with the same fallback as
forward, `region` only when caller-supplied, `result_type` and
`location_type`. -/
theorem place_request_via_geocode_endpoint (cfg : ServerConfig) (p : PlaceGeocodeParams)
    (_h : validatePlaceParams p = none) :
    (buildPlace cfg p).endpoint = Endpoint.geocode
    ∧ (buildPlace cfg p).place_id = p.place_id
    ∧ (buildPlace cfg p).key = cfg.apiKey
    ∧ (buildPlace cfg p).language = jsOrStr p.language (jsOrStr cfg.defaultLanguage none)
    ∧ (∀ pf : ForwardGeocodeParams, pf.language = p.language →
        (buildPlace cfg p).language = (buildForward cfg pf).language)
    ∧ (strTruthy p.region = false → (buildPlace cfg p).region = none)
    ∧ (strTruthy p.region = true → (buildPlace cfg p).region = p.region)
    ∧ (buildPlace cfg p).result_type = p.result_type
    ∧ (buildPlace cfg p).location_type = p.location_type := by
  refine ⟨rfl, rfl, rfl, rfl, ?_, ?_, ?_, rfl, rfl⟩
  · intro pf hl
    simp [buildPlace, buildForward, hl]
  · intro h2; simp [buildPlace, h2]
  · intro h2; simp [buildPlace, h2]

/-- Closed instantiation of the amended C5 theorem at a concrete validated
place request. -/
theorem place_request_via_geocode_endpoint_witness :
    (buildPlace cfgDR ⟨some "ChIJd8BlQ2BZwokRAFUEcm_qrcA", some "fr", none, none, none⟩).endpoint
      = Endpoint.geocode
    ∧ (buildPlace cfgDR ⟨some "ChIJd8BlQ2BZwokRAFUEcm_qrcA", some "fr", none, none, none⟩).region
      = none :=
  have h := place_request_via_geocode_endpoint cfgDR
    ⟨some "ChIJd8BlQ2BZwokRAFUEcm_qrcA", some "fr", none, none, none⟩ (by decide)
  ⟨h.1, h.2.2.2.2.2.1 rfl⟩

/-- Claim C1 is refuted on the source: on the error path that surfaces an
upstream error body verbatim, a body without a `results` field is returned
with `results` absent (and a non-OK status), even though validation
passed. -/
theorem results_field_dropped_counterexample :
    validateReverseParams ⟨.str "40.714224,-73.961452", none, none, none, none⟩ = none
    ∧ (geocodeReverse cfg0 ⟨.str "40.714224,-73.961452", none, none, none, none⟩
        (fun _ => .raise (.withBody
          ⟨"REQUEST_DENIED", none, some "The provided API key is invalid."⟩))).results
      = none
    ∧ "REQUEST_DENIED" ≠ "OK" := by
  refine ⟨by decide, ?_, by decide⟩
  have hv : validateReverseParams ⟨.str "40.714224,-73.961452", none, none, none, none⟩
      = none := by decide
  unfold geocodeReverse
  rw [hv]
  rfl

/-- Claim C1 as amended: on the two synthesized paths (validation failure
and an upstream failure with no structured body) the response has status
`INVALID_REQUEST` and `results` present and empty; on the pass-through
paths (upstream success, or an upstream error carrying a body) the
response is the upstream payload verbatim, so `results` is exactly
whatever that payload carries. -/
theorem results_empty_on_synthesized_paths (cfg : ServerConfig)
    (pf : ForwardGeocodeParams) (pr : ReverseGeocodeParams) (pp : PlaceGeocodeParams)
    (uf ur up : OutboundParams → Outcome) :
    ((geocodeForward cfg pf uf).status = "INVALID_REQUEST"
        ∧ (geocodeForward cfg pf uf).results = some []
      ∨ ∃ d, (uf (buildForward cfg pf) = .success d
            ∨ uf (buildForward cfg pf) = .raise (.withBody d))
          ∧ geocodeForward cfg pf uf = d)
    ∧ ((geocodeReverse cfg pr ur).status = "INVALID_REQUEST"
        ∧ (geocodeReverse cfg pr ur).results = some []
      ∨ ∃ d, (ur (buildReverse cfg pr) = .success d
            ∨ ur (buildReverse cfg pr) = .raise (.withBody d))
          ∧ geocodeReverse cfg pr ur = d)
    ∧ ((geocodePlace cfg pp up).status = "INVALID_REQUEST"
        ∧ (geocodePlace cfg pp up).results = some []
      ∨ ∃ d, (up (buildPlace cfg pp) = .success d
            ∨ up (buildPlace cfg pp) = .raise (.withBody d))
          ∧ geocodePlace cfg pp up = d) := by
  refine ⟨?_, ?_, ?_⟩
  · unfold geocodeForward
    cases hv : validateForwardParams pf with
    | some msg => exact Or.inl ⟨rfl, rfl⟩
    | none =>
      cases ho : uf (buildForward cfg pf) with
      | success d => exact Or.inr ⟨d, Or.inl rfl, rfl⟩
      | raise e =>
        cases e with
        | withBody d => exact Or.inr ⟨d, Or.inr rfl, rfl⟩
        | plain m => exact Or.inl ⟨rfl, rfl⟩
  · unfold geocodeReverse
    cases hv : validateReverseParams pr with
    | some msg => exact Or.inl ⟨rfl, rfl⟩
    | none =>
      cases ho : ur (buildReverse cfg pr) with
      | success d => exact Or.inr ⟨d, Or.inl rfl, rfl⟩
      | raise e =>
        cases e with
        | withBody d => exact Or.inr ⟨d, Or.inr rfl, rfl⟩
        | plain m => exact Or.inl ⟨rfl, rfl⟩
  · unfold geocodePlace
    cases hv : validatePlaceParams pp with
    | some msg => exact Or.inl ⟨rfl, rfl⟩
    | none =>
      cases ho : up (buildPlace cfg pp) with
      | success d => exact Or.inr ⟨d, Or.inl rfl, rfl⟩
      | raise e =>
        cases e with
        | withBody d => exact Or.inr ⟨d, Or.inr rfl, rfl⟩
        | plain m => exact Or.inl ⟨rfl, rfl⟩

/-- Claim C2: the three operations are total — every input and upstream
outcome produces a `GeocodeData` that is either a synthesized
`handleError` value or the verbatim upstream payload — and a validated
request whose upstream call fails with only a message normalizes to
status `INVALID_REQUEST`, empty results, and that message. -/
theorem geocode_totality_and_plain_failure (cfg : ServerConfig)
    (pf : ForwardGeocodeParams) (pr : ReverseGeocodeParams) (pp : PlaceGeocodeParams)
    (msg : String) :
    (validateForwardParams pf = none →
      geocodeForward cfg pf (fun _ => .raise (.plain msg))
        = { status := "INVALID_REQUEST", results := some [], error_message := some msg })
    ∧ (validateReverseParams pr = none →
      geocodeReverse cfg pr (fun _ => .raise (.plain msg))
        = { status := "INVALID_REQUEST", results := some [], error_message := some msg })
    ∧ (validatePlaceParams pp = none →
      geocodePlace cfg pp (fun _ => .raise (.plain msg))
        = { status := "INVALID_REQUEST", results := some [], error_message := some msg })
    ∧ (∀ uf, (∃ m, geocodeForward cfg pf uf = handleError (.plain m))
        ∨ ∃ d, geocodeForward cfg pf uf = d
            ∧ (uf (buildForward cfg pf) = .success d
              ∨ uf (buildForward cfg pf) = .raise (.withBody d)))
    ∧ (∀ ur, (∃ m, geocodeReverse cfg pr ur = handleError (.plain m))
        ∨ ∃ d, geocodeReverse cfg pr ur = d
            ∧ (ur (buildReverse cfg pr) = .success d
              ∨ ur (buildReverse cfg pr) = .raise (.withBody d)))
    ∧ (∀ up, (∃ m, geocodePlace cfg pp up = handleError (.plain m))
        ∨ ∃ d, geocodePlace cfg pp up = d
            ∧ (up (buildPlace cfg pp) = .success d
              ∨ up (buildPlace cfg pp) = .raise (.withBody d))) := by
  refine ⟨?_, ?_, ?_, ?_, ?_, ?_⟩
  · intro h; unfold geocodeForward; rw [h]; rfl
  · intro h; unfold geocodeReverse; rw [h]; rfl
  · intro h; unfold geocodePlace; rw [h]; rfl
  · intro uf
    unfold geocodeForward
    cases hv : validateForwardParams pf with
    | some msg2 => exact Or.inl ⟨msg2, rfl⟩
    | none =>
      cases ho : uf (buildForward cfg pf) with
      | success d => exact Or.inr ⟨d, rfl, Or.inl rfl⟩
      | raise e =>
        cases e with
        | withBody d => exact Or.inr ⟨d, rfl, Or.inr rfl⟩
        | plain m => exact Or.inl ⟨m, rfl⟩
  · intro ur
    unfold geocodeReverse
    cases hv : validateReverseParams pr with
    | some msg2 => exact Or.inl ⟨msg2, rfl⟩
    | none =>
      cases ho : ur (buildReverse cfg pr) with
      | success d => exact Or.inr ⟨d, rfl, Or.inl rfl⟩
      | raise e =>
        cases e with
        | withBody d => exact Or.inr ⟨d, rfl, Or.inr rfl⟩
        | plain m => exact Or.inl ⟨m, rfl⟩
  · intro up
    unfold geocodePlace
    cases hv : validatePlaceParams pp with
    | some msg2 => exact Or.inl ⟨msg2, rfl⟩
    | none =>
      cases ho : up (buildPlace cfg pp) with
      | success d => exact Or.inr ⟨d, rfl, Or.inl rfl⟩
      | raise e =>
        cases e with
        | withBody d => exact Or.inr ⟨d, rfl, Or.inr rfl⟩
        | plain m => exact Or.inl ⟨m, rfl⟩

/-- Closed instantiation of the C2 theorem: validated requests whose
upstream call fails with only a message normalize to `INVALID_REQUEST`
with that message, for all three operations. -/
theorem geocode_totality_and_plain_failure_witness :
    geocodeForward cfg0 ⟨some "1600 Amphitheatre Parkway", none, none, none, none, none, none⟩
        (fun _ => .raise (.plain "getaddrinfo ENOTFOUND maps.googleapis.com"))
      = { status := "INVALID_REQUEST", results := some [],
          error_message := some "getaddrinfo ENOTFOUND maps.googleapis.com" }
    ∧ geocodeReverse cfg0 ⟨.str "40.714224,-73.961452", none, none, none, none⟩
        (fun _ => .raise (.plain "timeout of 5000ms exceeded"))
      = { status := "INVALID_REQUEST", results := some [],
          error_message := some "timeout of 5000ms exceeded" }
    ∧ geocodePlace cfg0 ⟨some "ChIJd8BlQ2BZwokRAFUEcm_qrcA", none, none, none, none⟩
        (fun _ => .raise (.plain "socket hang up"))
      = { status := "INVALID_REQUEST", results := some [],
          error_message := some "socket hang up" } :=
  ⟨(geocode_totality_and_plain_failure cfg0
      ⟨some "1600 Amphitheatre Parkway", none, none, none, none, none, none⟩
      ⟨.str "40.714224,-73.961452", none, none, none, none⟩
      ⟨some "ChIJd8BlQ2BZwokRAFUEcm_qrcA", none, none, none, none⟩
      "getaddrinfo ENOTFOUND maps.googleapis.com").1 (by decide),
    (geocode_totality_and_plain_failure cfg0
      ⟨some "1600 Amphitheatre Parkway", none, none, none, none, none, none⟩
      ⟨.str "40.714224,-73.961452", none, none, none, none⟩
      ⟨some "ChIJd8BlQ2BZwokRAFUEcm_qrcA", none, none, none, none⟩
      "timeout of 5000ms exceeded").2.1 (by decide),
    (geocode_totality_and_plain_failure cfg0
      ⟨some "1600 Amphitheatre Parkway", none, none, none, none, none, none⟩
      ⟨.str "40.714224,-73.961452", none, none, none, none⟩
      ⟨some "ChIJd8BlQ2BZwokRAFUEcm_qrcA", none, none, none, none⟩
      "socket hang up").2.2.1 (by decide)⟩

end GeoMcp
